import Mathlib

/-!
# ILLUMINUS processing-session protocol client — verification

Shallow embedding of the WebSocket client modules of the ILLUMINUS repository:

* `src/frontend/assets/js/core/WebSocketManager.js`
* `src/frontend/assets/js/modules/ProcessingPipeline.js`
* `src/frontend/assets/js/modules/FileManager.js`

JavaScript objects become Lean structures, the single-threaded callback
execution becomes explicit state passing, exceptions become `Except`, and the
host base64 builtins (`FileReader.readAsDataURL` producing the base64 payload,
`atob` consuming it) are modelled by the RFC 4648 algorithm they implement.
JSON numbers are modelled as `Rat`.
-/

namespace Illuminus

/-! ## Base64 codec

`FileManager.fileToBase64` delegates to `FileReader.readAsDataURL`, whose
result is `data:<mime>;base64,` followed by the standard (RFC 4648, padded)
base64 encoding of the file bytes; `ProcessingPipeline` strips the prefix with
`split(',')[1]`, so the wire text form of a byte sequence is exactly the
padded base64 encoding modelled here.  `FileManager.base64ToBlob` applies the
host `atob` and then copies `charCodeAt` of every character of the resulting
binary string into a `Uint8Array`; `decodeB64` models that composite. -/

/-- The base64 alphabet used by the host `btoa`/`atob`/data-URL encoders. -/
def base64Table : List Char :=
  "ABCDEFGHIJKLMNOPQRSTUVWXYZabcdefghijklmnopqrstuvwxyz0123456789+/".toList

/-- Character for a sextet value. -/
def b64Char (n : Nat) : Char := base64Table.getD n 'A'

/-- Sextet value of an alphabet character (inverse table lookup). -/
def b64Val (ch : Char) : Nat := base64Table.indexOf ch

/-- Padded base64 encoding of a byte sequence (the payload produced by
`readAsDataURL` after the comma, i.e. the wire text form sent in
`audio_base64` / `image_base64`). -/
def encodeB64 : List Nat → List Char
  | [] => []
  | [b0] => [b64Char (b0 / 4), b64Char (b0 % 4 * 16), '=', '=']
  | [b0, b1] => [b64Char (b0 / 4), b64Char (b0 % 4 * 16 + b1 / 16),
                 b64Char (b1 % 16 * 4), '=']
  | b0 :: b1 :: b2 :: rest =>
      b64Char (b0 / 4) :: b64Char (b0 % 4 * 16 + b1 / 16) ::
      b64Char (b1 % 16 * 4 + b2 / 64) :: b64Char (b2 % 64) :: encodeB64 rest

/-- Base64 decoding of the wire text form back to bytes: the model of
`base64ToBlob`'s `atob` call followed by its `charCodeAt` copy loop. -/
def decodeB64 : List Char → List Nat
  | c0 :: c1 :: c2 :: c3 :: rest =>
      if c2 = '=' then
        [b64Val c0 * 4 + b64Val c1 / 16]
      else if c3 = '=' then
        [b64Val c0 * 4 + b64Val c1 / 16,
         b64Val c1 % 16 * 16 + b64Val c2 / 4]
      else
        (b64Val c0 * 4 + b64Val c1 / 16) ::
        (b64Val c1 % 16 * 16 + b64Val c2 / 4) ::
        (b64Val c2 % 4 * 64 + b64Val c3) :: decodeB64 rest
  | _ => []

/-! ## WebSocketManager

State of a `WebSocketManager` instance (`WebSocketManager.js`).  The JS fields
`ws`, `isConnected`, `reconnectAttempts`, `maxReconnectAttempts`,
`reconnectDelay` and `messageHandlers` are embedded directly; in addition
`pendingReconnects` counts `setTimeout` reconnect callbacks that have been
scheduled by `scheduleReconnect` but have not fired yet (the source stores no
handle to them, so nothing can clear them). -/
structure WSState where
  /-- `this.ws !== null`. -/
  wsPresent : Bool
  /-- `this.isConnected`. -/
  isConnected : Bool
  /-- `this.reconnectAttempts`. -/
  reconnectAttempts : Nat
  /-- `this.maxReconnectAttempts` (constructor sets 5). -/
  maxReconnectAttempts : Nat
  /-- `this.reconnectDelay` in ms (constructor sets 1000). -/
  reconnectDelay : Nat
  /-- Types for which `onMessage` registered a handler. -/
  handlers : List String
  /-- Reconnect `setTimeout` callbacks scheduled and not yet fired. -/
  pendingReconnects : Nat
deriving DecidableEq, Repr

/-- The state after `new WebSocketManager()`. -/
def initWS : WSState :=
  { wsPresent := false, isConnected := false, reconnectAttempts := 0,
    maxReconnectAttempts := 5, reconnectDelay := 1000, handlers := [],
    pendingReconnects := 0 }

/-- `this.ws.onopen`: sets `isConnected`, resets the attempt counter. -/
def onopen (s : WSState) : WSState :=
  { s with isConnected := true, reconnectAttempts := 0 }

/-- `scheduleReconnect()`: increments the attempt counter, schedules a
`setTimeout(connect, delay)` with `delay = reconnectDelay * 2^(attempts-1)`
for the incremented counter.  Returns the new state and the delay. -/
def scheduleReconnect (s : WSState) : WSState × Nat :=
  let a := s.reconnectAttempts + 1
  ({ s with reconnectAttempts := a, pendingReconnects := s.pendingReconnects + 1 },
   s.reconnectDelay * 2 ^ (a - 1))

/-- `this.ws.onclose`: clears `isConnected`; on an unclean close while
attempts remain, calls `scheduleReconnect`.  Returns the new state and the
scheduled delay, if any. -/
def onclose (s : WSState) (wasClean : Bool) : WSState × Option Nat :=
  let s1 := { s with isConnected := false }
  if wasClean = false ∧ s1.reconnectAttempts < s1.maxReconnectAttempts then
    let (s2, d) := scheduleReconnect s1
    (s2, some d)
  else (s1, none)

/-- `disconnect()`: if a socket exists, `ws.close(1000, 'Manual disconnect')`
and `ws = null`; then `isConnected = false`.  Returns the new state and
whether `close` was invoked.  Nothing touches `pendingReconnects`: the source
keeps no handle to scheduled reconnect timeouts. -/
def disconnect (s : WSState) : WSState × Bool :=
  ({ s with wsPresent := false, isConnected := false }, s.wsPresent)

/-- A scheduled reconnect `setTimeout` callback fires: it invokes
`this.connect()`.  Returns the new state and whether `connect()` was
invoked (`true` exactly when a timer was pending). -/
def timerFire (s : WSState) : WSState × Bool :=
  if 0 < s.pendingReconnects then
    ({ s with pendingReconnects := s.pendingReconnects - 1 }, true)
  else (s, false)

/-- The `options` record sent in a `process` message:
`UIManager.getConfiguration()` plus the `audio_format` / `image_format`
fields that `ProcessingPipeline.processWithWebSocket` adds. -/
structure Options where
  model_type : String := "nota_wav2lip"
  device : String := "auto"
  pads : List Int := [0, 10, 0, 0]
  resize_factor : Int := 1
  face_det_batch_size : Int := 16
  static : Bool := false
  nosmooth : Bool := false
  audio_format : String := ""
  image_format : String := ""
deriving DecidableEq

/-- Outbound wire messages (client → server). -/
inductive WireMsg
  | process (audio_base64 image_base64 : List Char) (options : Options)
  | ping
  | cancel
deriving DecidableEq

/-- Error thrown by `send`. -/
inductive SendErr
  | notConnected
deriving DecidableEq

/-- `send(message)`: throws `'WebSocket not connected'` unless
`this.isConnected && this.ws`; otherwise performs exactly one
`this.ws.send(...)` of the message.  The `.ok` value is the transmitted
message; `.error` means the exception was thrown and nothing was sent. -/
def send (s : WSState) (m : WireMsg) : Except SendErr WireMsg :=
  if s.isConnected = false ∨ s.wsPresent = false then .error .notConnected
  else .ok m

/-- An inbound JSON message as far as the router looks at it. -/
structure RawMsg where
  type : String
deriving DecidableEq

/-- What `handleMessage` did with a message. -/
inductive RouterAction
  | dispatched (type : String)
  | loggedUnhandled (type : String)
deriving DecidableEq

/-- `handleMessage(message)`: looks up `message.type` among the registered
handlers; calls the handler when there is one, otherwise logs the message.
Connection state is not touched. -/
def handleMessage (s : WSState) (m : RawMsg) : WSState × RouterAction :=
  if m.type ∈ s.handlers then (s, .dispatched m.type)
  else (s, .loggedUnhandled m.type)

/-- The outcome of `JSON.parse(event.data)` on an inbound frame: `.ok` for a
parseable frame, `.error` when the host parser throws. -/
inductive ParseErr
  | malformed
deriving DecidableEq

/-- The `this.ws.onmessage` callback:
`this.handleMessage(JSON.parse(event.data))`.  The parse result is passed in;
there is no `try`/`catch` in the callback, so a parse exception propagates
out of it (`.error`) without `handleMessage` running, and the state is
returned unchanged on that path. -/
def onmessage (s : WSState) (parsed : Except ParseErr RawMsg) :
    WSState × Except ParseErr RouterAction :=
  match parsed with
  | .error e => (s, .error e)
  | .ok m =>
      let (s1, a) := handleMessage s m
      (s1, .ok a)

/-! ## FileManager helpers used by the pipeline -/

/-- A file as the pipeline sees it: name, MIME type and raw bytes. -/
structure FileData where
  name : String
  mime : String
  bytes : List Nat
deriving DecidableEq

/-- `FileManager.currentFiles` as returned by `getFiles()`. -/
structure Files where
  video : Option FileData := none
  audio : Option FileData := none
  videoType : String := "video"
deriving DecidableEq

/-- `FileManager.getFileExtension`: `filename.split('.').pop().toLowerCase()`. -/
def getFileExtension (filename : String) : String :=
  ((filename.splitOn ".").getLastD "").toLower

/-- `FileManager.fileToBase64`: `FileReader.readAsDataURL` yields
`data:<mime>;base64,` followed by the padded base64 payload. -/
def fileToBase64 (f : FileData) : List Char :=
  ("data:" ++ f.mime ++ ";base64,").toList ++ encodeB64 f.bytes

/-- `str.split(',')[1]`, as used to strip the data-URL prefix. -/
def splitCommaSecond (s : List Char) : List Char :=
  (s.splitOn ',').getD 1 []

/-! ## ProcessingPipeline -/

/-- JavaScript `x || d` for an optional number (`0` and absent are falsy). -/
def jsOrRat (v : Option Rat) (d : Rat) : Rat :=
  match v with
  | some x => if x = 0 then d else x
  | none => d

/-- JavaScript `x || d` for an optional string (`""` and absent are falsy). -/
def jsOrStr (v : Option String) (d : String) : String :=
  match v with
  | some x => if x = "" then d else x
  | none => d

/-- Observable UI effects (`uiManager` calls and toasts). -/
inductive UIEvent
  | updateProgress (pct : Rat) (msg : String)
  | updateMetrics
  | updateMetricsTime (secs : Rat)
  | stopProcessingUI
  | showResult
  | toast (kind msg : String)
deriving DecidableEq

/-- The mutable fields of a `ProcessingPipeline` instance. -/
structure PipelineState where
  /-- `this.isProcessing`. -/
  isProcessing : Bool := false
  /-- `this.startTime` (ms timestamp). -/
  startTime : Option Nat := none
  /-- `this.downloadUrl`; the object URL is modelled by the blob bytes it
  points at. -/
  downloadUrl : Option (List Nat) := none
  /-- `this.resultVideoBlob` contents. -/
  resultVideoBlob : Option (List Nat) := none
deriving DecidableEq

/-- The state after `new ProcessingPipeline(...)`. -/
def initPipeline : PipelineState := {}

/-- The `metrics` object optionally carried by inbound messages. -/
structure Metrics where
  processing_time : Option Rat := none
  inference_fps : Option Rat := none
  frames_processed : Option Rat := none
  model_type : Option String := none
deriving DecidableEq

/-- An inbound `result` message, with every field the handler or the wire
documentation mentions (absent fields are `none`). -/
structure ResultMsg where
  video_base64 : Option (List Char) := none
  processing_time : Option Rat := none
  inference_fps : Option Rat := none
  frames_processed : Option Rat := none
  model_used : Option String := none
  metrics : Option Metrics := none
deriving DecidableEq

/-- Inbound (server → client) messages, discriminated by their `type` tag. -/
inductive ServerMsg
  | connection (client_id : Option String) (message : Option String)
  | progress (progress : Option Rat) (message : Option String)
             (metrics : Option Metrics)
  | result (m : ResultMsg)
  | error (error_type : Option String) (message : Option String)
  | cancelled
  | pong
deriving DecidableEq

/-- Whether a message type ends the request lifecycle. -/
def isTerminal : ServerMsg → Bool
  | .result _ => true
  | .error _ _ => true
  | .cancelled => true
  | _ => false

/-- The message types `setupWebSocketHandlers` registers on the
`WebSocketManager`. -/
def pipelineHandlers : List String := ["progress", "result", "error", "cancelled"]

/-- `handleProgressMessage`: `updateProgress(message.progress || 50,
message.message || 'Processing...')`, then `updateMetrics` when `metrics` is
present.  The pipeline state is not touched. -/
def handleProgressMessage (st : PipelineState) (p : Option Rat)
    (msg : Option String) (metrics : Option Metrics) :
    PipelineState × List UIEvent :=
  (st, UIEvent.updateProgress (jsOrRat p 50) (jsOrStr msg "Processing...") ::
       (if metrics.isSome then [UIEvent.updateMetrics] else []))

/-- `stopProcessing()`: clears `isProcessing`, stops the UI, and when
`this.startTime` is truthy reports `(Date.now() - startTime) / 1000` as the
processing time. -/
def stopProcessing (st : PipelineState) (now : Nat) :
    PipelineState × List UIEvent :=
  let st1 := { st with isProcessing := false }
  match st.startTime with
  | some t =>
      if t = 0 then (st1, [UIEvent.stopProcessingUI])
      else (st1, [UIEvent.stopProcessingUI,
                  UIEvent.updateMetricsTime (((now - t : Nat) : Rat) / 1000)])
  | none => (st1, [UIEvent.stopProcessingUI])

/-- The object `handleResultMessage` passes to `uiManager.showResult`. -/
structure ResultView where
  /-- Bytes behind the object URL created for `video_url`. -/
  videoBytes : List Nat
  /-- Bytes behind the object URL created for `originalSrc`. -/
  originalSrcBytes : Option (List Nat)
  total_processing_time : Rat
  inference_fps : Rat
  frames_processed : Rat
  model_type : String
deriving DecidableEq

/-- `handleResultMessage`: `stopProcessing()`, `updateProgress(100, ...)`,
then — when `message.video_base64` is truthy — decode the base64 video to a
blob, store the download URL and blob, and show a result whose numeric and
model fields are read from `message.metrics?.…` with `|| 0` / `|| 'Unknown'`
fallbacks. -/
def handleResultMessage (st : PipelineState) (files : Files) (m : ResultMsg)
    (now : Nat) : PipelineState × List UIEvent × Option ResultView :=
  let st1 := (stopProcessing st now).1
  let ui1 := (stopProcessing st now).2
  let ui2 := ui1 ++ [UIEvent.updateProgress 100 "Cosmic processing complete!"]
  match m.video_base64 with
  | some b64 =>
      if b64 = [] then (st1, ui2, none)
      else
        let blob := decodeB64 b64
        let view : ResultView :=
          { videoBytes := blob
            originalSrcBytes := files.video.map (·.bytes)
            total_processing_time := jsOrRat (m.metrics.bind (·.processing_time)) 0
            inference_fps := jsOrRat (m.metrics.bind (·.inference_fps)) 0
            frames_processed := jsOrRat (m.metrics.bind (·.frames_processed)) 0
            model_type := jsOrStr (m.metrics.bind (·.model_type)) "Unknown" }
        ({ st1 with downloadUrl := some blob, resultVideoBlob := some blob },
         ui2 ++ [UIEvent.showResult,
                 UIEvent.toast "success" "Cosmic video generated successfully via WebSocket!"],
         some view)
  | none => (st1, ui2, none)

/-- `handleErrorMessage`: error toast with the server text, then
`stopProcessing()`. -/
def handleErrorMessage (st : PipelineState) (msg : Option String) (now : Nat) :
    PipelineState × List UIEvent :=
  ((stopProcessing st now).1,
   UIEvent.toast "error" ("Processing error: " ++ msg.getD "undefined") ::
     (stopProcessing st now).2)

/-- `handleCancelledMessage`: warning toast, then `stopProcessing()`. -/
def handleCancelledMessage (st : PipelineState) (now : Nat) :
    PipelineState × List UIEvent :=
  ((stopProcessing st now).1,
   UIEvent.toast "warning" "Processing cancelled" :: (stopProcessing st now).2)

/-- Inbound dispatch: the handlers registered by `setupWebSocketHandlers`,
routed by message type; `connection` / `pong` / unknown types have no
registered pipeline handler and leave the pipeline untouched. -/
def dispatch (st : PipelineState) (files : Files) (now : Nat) :
    ServerMsg → PipelineState × List UIEvent × Option ResultView
  | .progress p msg mm =>
      ((handleProgressMessage st p msg mm).1, (handleProgressMessage st p msg mm).2, none)
  | .result m => handleResultMessage st files m now
  | .error _ msg =>
      ((handleErrorMessage st msg now).1, (handleErrorMessage st msg now).2, none)
  | .cancelled =>
      ((handleCancelledMessage st now).1, (handleCancelledMessage st now).2, none)
  | _ => (st, [], none)

/-- Why `startProcessing` rejected. -/
inductive StartErr
  | alreadyProcessing
  | missingFiles
  | connectionFailed
deriving DecidableEq

/-- How the operation returned by `startProcessing` settled.  An `async`
function's promise settles exactly once, when the function body finishes:
`resolved` when it returns, `rejected` when it throws. -/
inductive StartOutcome
  | resolved
  | rejected (e : StartErr)
deriving DecidableEq

/-- Everything one `startProcessing` call produces. -/
structure StartResult where
  state : PipelineState
  sends : List WireMsg
  ui : List UIEvent
  outcome : StartOutcome
deriving DecidableEq

/-- `processWithWebSocket()`: encode both files with `fileToBase64`, strip
the data-URL prefixes with `split(',')[1]`, extend the UI configuration with
the file formats, and `wsManager.send` the single `process` message.  (This
runs only after `isReady()` or a resolved `connect()`, so `isConnected` holds
and `send` does not throw.) -/
def processWithWebSocket (st : PipelineState) (v a : FileData) (cfg : Options) :
    PipelineState × List WireMsg × List UIEvent :=
  let audioB64 := splitCommaSecond (fileToBase64 a)
  let videoB64 := splitCommaSecond (fileToBase64 v)
  let opts := { cfg with audio_format := getFileExtension a.name,
                         image_format := getFileExtension v.name }
  (st,
   [WireMsg.process audioB64 videoB64 opts],
   [UIEvent.updateProgress 10 "Converting files to base64...",
    UIEvent.updateProgress 30 "Sending to cosmic AI via WebSocket...",
    UIEvent.updateProgress 40 "Processing request sent to cosmic AI..."])

/-- `startProcessing()`: throws on an in-flight request, throws on missing
files, otherwise sets `isProcessing` / `startTime` and runs
`processWithWebSocket`, connecting first when the socket is not ready
(`wsReady`); a failed `connect()` is caught, clears `isProcessing` and
rethrows.  `connectOk` is whether the host would resolve that `connect()`. -/
def startProcessing (st : PipelineState) (files : Files) (cfg : Options)
    (wsReady : Bool) (connectOk : Bool) (now : Nat) : StartResult :=
  if st.isProcessing then
    { state := st, sends := [], ui := [],
      outcome := .rejected .alreadyProcessing }
  else
    match files.video, files.audio with
    | some v, some a =>
        let st1 := { st with isProcessing := true, startTime := some now }
        if wsReady then
          { state := (processWithWebSocket st1 v a cfg).1,
            sends := (processWithWebSocket st1 v a cfg).2.1,
            ui := (processWithWebSocket st1 v a cfg).2.2,
            outcome := .resolved }
        else if connectOk then
          { state := (processWithWebSocket st1 v a cfg).1,
            sends := (processWithWebSocket st1 v a cfg).2.1,
            ui := UIEvent.updateProgress 5 "Connecting to server..." ::
                    (processWithWebSocket st1 v a cfg).2.2,
            outcome := .resolved }
        else
          { state := { st1 with isProcessing := false }, sends := [],
            ui := [UIEvent.updateProgress 5 "Connecting to server..."],
            outcome := .rejected .connectionFailed }
    | _, _ =>
        { state := st, sends := [], ui := [],
          outcome := .rejected .missingFiles }

/-- `cancelProcessing()`: a no-op when nothing is in flight; otherwise sends
`{type: 'cancel'}` when the socket is ready, then immediately runs
`stopProcessing()` locally and shows a cancellation toast. -/
def cancelProcessing (st : PipelineState) (wsReady : Bool) (now : Nat) :
    PipelineState × List WireMsg × List UIEvent :=
  if st.isProcessing = false then (st, [], [])
  else
    ((stopProcessing st now).1,
     if wsReady then [WireMsg.cancel] else [],
     (stopProcessing st now).2 ++ [UIEvent.toast "warning" "Processing cancelled"])

/-! ## Concrete fixtures -/

/-- A small video file. -/
def demoVideoFile : FileData :=
  { name := "face.mp4", mime := "video/mp4", bytes := [1, 2, 3] }

/-- A small audio file. -/
def demoAudioFile : FileData :=
  { name := "voice.wav", mime := "audio/wav", bytes := [4, 5] }

/-- Both inputs present. -/
def demoFiles : Files := { video := some demoVideoFile, audio := some demoAudioFile }

/-- Default UI configuration. -/
def demoOptions : Options := {}

/-- A pipeline with a request outstanding (`isProcessing` set, `startTime`
recorded). -/
def busyPipeline : PipelineState := { isProcessing := true, startTime := some 100 }

/-- A manager with an open socket and one scheduled reconnect timer pending. -/
def wsAfterSchedule : WSState :=
  { initWS with wsPresent := true, isConnected := true, pendingReconnects := 1 }

/-- The `result` message of the repository's own wire documentation
(`docs/websocket_api_guide.md`) and of the `main.js` handler: the video and
all numeric/model fields are top-level; there is no `metrics` object. -/
def wireResultExample : ResultMsg :=
  { video_base64 := some (encodeB64 (List.replicate 32 0))
    processing_time := some 1
    inference_fps := some 30
    frames_processed := some 30
    model_used := some "nota_wav2lip"
    metrics := none }

/-! ## Helper lemmas -/

theorem b64Val_b64Char : ∀ n < 64, b64Val (b64Char n) = n := by decide

theorem b64Char_ne_pad : ∀ n < 64, b64Char n ≠ '=' := by decide

/-- Decoding inverts encoding on every byte sequence. -/
theorem decodeB64_encodeB64 :
    ∀ bs : List Nat, (∀ b ∈ bs, b < 256) → decodeB64 (encodeB64 bs) = bs
  | [], _ => rfl
  | [b0], h => by
      have hb0 : b0 < 256 := h b0 (by simp)
      have h1 : b64Val (b64Char (b0 / 4)) = b0 / 4 :=
        b64Val_b64Char _ (by omega)
      have h2 : b64Val (b64Char (b0 % 4 * 16)) = b0 % 4 * 16 :=
        b64Val_b64Char _ (by omega)
      simp [encodeB64, decodeB64, h1, h2]
      omega
  | [b0, b1], h => by
      have hb0 : b0 < 256 := h b0 (by simp)
      have hb1 : b1 < 256 := h b1 (by simp)
      have h1 : b64Val (b64Char (b0 / 4)) = b0 / 4 :=
        b64Val_b64Char _ (by omega)
      have h2 : b64Val (b64Char (b0 % 4 * 16 + b1 / 16)) = b0 % 4 * 16 + b1 / 16 :=
        b64Val_b64Char _ (by omega)
      have h3 : b64Val (b64Char (b1 % 16 * 4)) = b1 % 16 * 4 :=
        b64Val_b64Char _ (by omega)
      have n2' : ¬ (b64Char (b1 % 16 * 4) = '=') := b64Char_ne_pad _ (by omega)
      simp [encodeB64, decodeB64, h1, h2, h3, n2']
      omega
  | b0 :: b1 :: b2 :: r :: rs, h => by
      have hb0 : b0 < 256 := h b0 (by simp)
      have hb1 : b1 < 256 := h b1 (by simp)
      have hb2 : b2 < 256 := h b2 (by simp)
      have ih := decodeB64_encodeB64 (r :: rs) (fun b hb => h b (by simp [hb]))
      have h1 : b64Val (b64Char (b0 / 4)) = b0 / 4 :=
        b64Val_b64Char _ (by omega)
      have h2 : b64Val (b64Char (b0 % 4 * 16 + b1 / 16)) = b0 % 4 * 16 + b1 / 16 :=
        b64Val_b64Char _ (by omega)
      have h3 : b64Val (b64Char (b1 % 16 * 4 + b2 / 64)) = b1 % 16 * 4 + b2 / 64 :=
        b64Val_b64Char _ (by omega)
      have h4 : b64Val (b64Char (b2 % 64)) = b2 % 64 :=
        b64Val_b64Char _ (by omega)
      have n2 : ¬ (b64Char (b1 % 16 * 4 + b2 / 64) = '=') := b64Char_ne_pad _ (by omega)
      have n3 : ¬ (b64Char (b2 % 64) = '=') := b64Char_ne_pad _ (by omega)
      simp [encodeB64, decodeB64, h1, h2, h3, h4, n2, n3, ih]
      omega
  | [b0, b1, b2], h => by
      have hb0 : b0 < 256 := h b0 (by simp)
      have hb1 : b1 < 256 := h b1 (by simp)
      have hb2 : b2 < 256 := h b2 (by simp)
      have h1 : b64Val (b64Char (b0 / 4)) = b0 / 4 :=
        b64Val_b64Char _ (by omega)
      have h2 : b64Val (b64Char (b0 % 4 * 16 + b1 / 16)) = b0 % 4 * 16 + b1 / 16 :=
        b64Val_b64Char _ (by omega)
      have h3 : b64Val (b64Char (b1 % 16 * 4 + b2 / 64)) = b1 % 16 * 4 + b2 / 64 :=
        b64Val_b64Char _ (by omega)
      have h4 : b64Val (b64Char (b2 % 64)) = b2 % 64 :=
        b64Val_b64Char _ (by omega)
      have n2 : ¬ (b64Char (b1 % 16 * 4 + b2 / 64) = '=') := b64Char_ne_pad _ (by omega)
      have n3 : ¬ (b64Char (b2 % 64) = '=') := b64Char_ne_pad _ (by omega)
      simp [encodeB64, decodeB64, h1, h2, h3, h4, n2, n3]
      omega

theorem stopProcessing_fst (st : PipelineState) (now : Nat) :
    (stopProcessing st now).1 = { st with isProcessing := false } := by
  rcases h : st.startTime with _ | t
  · simp [stopProcessing, h]
  · simp only [stopProcessing, h]
    split <;> rfl

theorem handleResultMessage_fst (st : PipelineState) (files : Files)
    (m : ResultMsg) (now : Nat) :
    (handleResultMessage st files m now).1.isProcessing = false := by
  unfold handleResultMessage
  cases m.video_base64 with
  | none => simp [stopProcessing_fst]
  | some b64 =>
      split
      · split <;> simp [stopProcessing_fst]
      · simp [stopProcessing_fst]

theorem startProcessing_no_conflict (st : PipelineState) (files : Files)
    (cfg : Options) (wsReady connectOk : Bool) (now : Nat)
    (h : st.isProcessing = false) :
    (startProcessing st files cfg wsReady connectOk now).outcome ≠
      StartOutcome.rejected StartErr.alreadyProcessing := by
  unfold startProcessing
  rw [h]
  simp only [Bool.false_eq_true, if_false]
  rcases files.video with _ | v <;> rcases files.audio with _ | a <;>
    simp only [] <;> try exact fun hc => by cases hc
  split
  · intro hc; cases hc
  · split
    · intro hc; cases hc
    · intro hc; cases hc

/-! ## Claims -/

/-- C1, counterexample.  The claim says the asynchronous operation returned
by `startProcessing` "does not resolve until a terminal inbound message
(result, error, or cancelled) arrives".  In this invocation both inputs are
present and the session contains no inbound messages at all — no `progress`
and no terminal message is ever dispatched — yet the returned operation
resolves, because `startProcessing` returns (and its promise settles) as
soon as the `process` request has been transmitted. -/
theorem c1_counterexample :
    demoFiles.video.isSome = true ∧ demoFiles.audio.isSome = true ∧
    (startProcessing initPipeline demoFiles demoOptions true true 0).outcome =
      StartOutcome.resolved :=
  ⟨rfl, rfl, rfl⟩

/-- C1, amended: with both inputs present, no request in flight, and either
the socket ready or `connect()` succeeding, the operation returned by
`startProcessing` resolves as soon as the single `process` message has been
transmitted — it does not wait for any inbound message — and an inbound
`progress` message never changes the pipeline state (so it can neither
settle the operation nor affect the single settlement that already
happened). -/
theorem c1_resolves_on_send (st : PipelineState) (files : Files) (cfg : Options)
    (wsReady connectOk : Bool) (now : Nat)
    (hp : st.isProcessing = false)
    (hv : files.video.isSome = true) (ha : files.audio.isSome = true)
    (hc : wsReady = true ∨ connectOk = true) :
    (startProcessing st files cfg wsReady connectOk now).outcome =
      StartOutcome.resolved ∧
    (startProcessing st files cfg wsReady connectOk now).sends.length = 1 ∧
    (∀ st0 p m mm, (handleProgressMessage st0 p m mm).1 = st0) := by
  obtain ⟨v, hv2⟩ := Option.isSome_iff_exists.mp hv
  obtain ⟨a, ha2⟩ := Option.isSome_iff_exists.mp ha
  have key : (startProcessing st files cfg wsReady connectOk now).outcome =
      StartOutcome.resolved ∧
      (startProcessing st files cfg wsReady connectOk now).sends.length = 1 := by
    rcases hc with h | h
    · subst h
      simp [startProcessing, hp, hv2, ha2, processWithWebSocket]
    · subst h
      cases wsReady <;> simp [startProcessing, hp, hv2, ha2, processWithWebSocket]
  exact ⟨key.1, key.2, fun st0 p m mm => rfl⟩

/-- C1 witness: the amended theorem applied to the concrete no-inbound
session. -/
theorem c1_witness :
    (startProcessing initPipeline demoFiles demoOptions true true 0).outcome =
      StartOutcome.resolved ∧
    (startProcessing initPipeline demoFiles demoOptions true true 0).sends.length = 1 := by
  have h := c1_resolves_on_send initPipeline demoFiles demoOptions true true 0
    rfl rfl rfl (Or.inl rfl)
  exact ⟨h.1, h.2.1⟩

/-- C2: while a prior `startProcessing` is unresolved (`isProcessing` still
set), a second `startProcessing` call fails immediately with the
single-flight-conflict error (`'Processing already in progress'`), transmits
no wire message, performs no UI update and leaves the state untouched. -/
theorem c2_single_flight (st : PipelineState) (files : Files) (cfg : Options)
    (wsReady connectOk : Bool) (now : Nat) (h : st.isProcessing = true) :
    startProcessing st files cfg wsReady connectOk now =
      { state := st, sends := [], ui := [],
        outcome := StartOutcome.rejected StartErr.alreadyProcessing } := by
  simp [startProcessing, h]

/-- C2 witness: the conflict rejection at a concrete busy pipeline. -/
theorem c2_witness :
    startProcessing busyPipeline demoFiles demoOptions true true 5 =
      { state := busyPipeline, sends := [], ui := [],
        outcome := StartOutcome.rejected StartErr.alreadyProcessing } :=
  c2_single_flight busyPipeline demoFiles demoOptions true true 5 rfl

/-- C3, counterexample.  The claim says `cancel()` "never locally fabricates
a terminal state for the outstanding request" and that the outstanding
operation "is resolved only by a subsequent `cancelled` or `error` message
from the server".  With a request outstanding, `cancelProcessing` sends the
`cancel` message but then immediately runs `stopProcessing()` locally: the
processing flag is cleared and a cancellation toast is shown although no
server message has arrived. -/
theorem c3_counterexample :
    (cancelProcessing busyPipeline true 500).2.1 = [WireMsg.cancel] ∧
    (cancelProcessing busyPipeline true 500).1.isProcessing = false ∧
    UIEvent.toast "warning" "Processing cancelled" ∈
      (cancelProcessing busyPipeline true 500).2.2 := by
  refine ⟨rfl, rfl, ?_⟩
  decide

/-- C3, amended: `cancelProcessing` with a request outstanding sends a
`cancel` message when the socket is ready (none otherwise) and immediately
terminates the request locally via `stopProcessing()`, without waiting for
server confirmation; with no request outstanding it is a no-op that sends
nothing. -/
theorem c3_cancel_local_stop (st : PipelineState) (wsReady : Bool) (now : Nat) :
    (st.isProcessing = true →
      (cancelProcessing st wsReady now).2.1 =
        (if wsReady then [WireMsg.cancel] else []) ∧
      (cancelProcessing st wsReady now).1.isProcessing = false) ∧
    (st.isProcessing = false → cancelProcessing st wsReady now = (st, [], [])) := by
  constructor
  · intro h
    constructor
    · simp [cancelProcessing, h]
    · simp [cancelProcessing, h, stopProcessing_fst]
  · intro h
    simp [cancelProcessing, h]

/-- C3 witness: the amended behaviour at a concrete busy pipeline. -/
theorem c3_witness :
    (cancelProcessing busyPipeline true 500).2.1 = [WireMsg.cancel] ∧
    (cancelProcessing busyPipeline true 500).1.isProcessing = false := by
  have h := (c3_cancel_local_stop busyPipeline true 500).1 rfl
  simpa using h

/-- C4, counterexample.  The claim says a malformed (non-parseable) inbound
frame is caught and "produces exactly one internal-error observable event".
The `onmessage` callback is `this.handleMessage(JSON.parse(event.data))`
with no `try`/`catch`: on a parse failure the exception propagates out of
the callback (the `.error` outcome below), `handleMessage` never runs, and
no internal-error event of any kind is produced — there is no `.ok` result
carrying an observable event. -/
theorem c4_counterexample :
    onmessage initWS (Except.error ParseErr.malformed) =
      (initWS, Except.error ParseErr.malformed) :=
  rfl

/-- C4, amended: on a malformed inbound frame the parse exception is not
caught — it propagates out of the `onmessage` callback, no handler is
invoked and no observable event is produced — while every connection-state
field is left unchanged. -/
theorem c4_malformed_propagates (s : WSState) (e : ParseErr) :
    onmessage s (Except.error e) = (s, Except.error e) :=
  rfl

/-- C5: on an unclean close while attempts remain (counter below the maximum
of 5), the manager schedules reconnect attempt `n` (the incremented counter)
after a delay of `reconnectDelay * 2^(n-1)`; once the counter has reached 5
no reconnect is scheduled; and a successful open resets the counter to
zero. -/
theorem c5_backoff (s : WSState) (h5 : s.maxReconnectAttempts = 5) :
    (∀ n, s.reconnectAttempts + 1 = n → s.reconnectAttempts < 5 →
      onclose s false =
        ({ s with isConnected := false,
                  reconnectAttempts := n,
                  pendingReconnects := s.pendingReconnects + 1 },
         some (s.reconnectDelay * 2 ^ (n - 1)))) ∧
    (5 ≤ s.reconnectAttempts →
      onclose s false = ({ s with isConnected := false }, none)) ∧
    (onopen s).reconnectAttempts = 0 := by
  refine ⟨?_, ?_, rfl⟩
  · intro n hn hlt
    subst hn
    simp [onclose, scheduleReconnect, h5, hlt]
  · intro hge
    have hnlt : ¬ s.reconnectAttempts < 5 := by omega
    simp [onclose, h5, hnlt]

/-- C5 witness: from attempt counter 2, an unclean close schedules attempt 3
after `1000 * 2^2 = 4000` ms, and a successful open resets the counter. -/
theorem c5_witness :
    onclose { initWS with reconnectAttempts := 2 } false =
      ({ initWS with isConnected := false, reconnectAttempts := 3,
                     pendingReconnects := 1 },
       some 4000) ∧
    (onopen { initWS with reconnectAttempts := 2 }).reconnectAttempts = 0 := by
  have h := c5_backoff { initWS with reconnectAttempts := 2 } rfl
  refine ⟨?_, h.2.2⟩
  have h1 := h.1 3 rfl (by decide)
  simpa [initWS] using h1

/-- C6, counterexample.  The claim says that after `disconnect()` "any
already-scheduled reconnect is cancelled and no further automatic
reconnection ever occurs".  `disconnect()` stores no timer handle and clears
nothing: with one reconnect timer already scheduled, the timer is still
pending after `disconnect()` and its firing invokes `connect()` — an
automatic reconnection attempt after the caller-initiated disconnect. -/
theorem c6_counterexample :
    (disconnect wsAfterSchedule).1.pendingReconnects = 1 ∧
    (timerFire (disconnect wsAfterSchedule).1).2 = true :=
  ⟨rfl, rfl⟩

/-- C6, amended: `disconnect()` closes the socket (when present) with the
clean code 1000 and clears the socket reference and the connected flag; the
resulting clean close schedules no new reconnect; but an already-scheduled
reconnect timer is not cancelled — if one is pending it still fires and
invokes `connect()`. -/
theorem c6_disconnect (s : WSState) :
    disconnect s = ({ s with wsPresent := false, isConnected := false },
                    s.wsPresent) ∧
    (onclose (disconnect s).1 true).2 = none ∧
    (0 < s.pendingReconnects → (timerFire (disconnect s).1).2 = true) := by
  refine ⟨rfl, ?_, ?_⟩
  · simp [onclose]
  · intro h
    simp [disconnect, timerFire, h]

/-- C6 witness: the amended theorem at a manager with one pending timer. -/
theorem c6_witness : (timerFire (disconnect wsAfterSchedule).1).2 = true :=
  (c6_disconnect wsAfterSchedule).2.2 (by decide)

/-- C7: in every state whose connected flag is down (i.e. any state other
than Connected), `send` throws the `'WebSocket not connected'` error
synchronously; the `.error` return means no `ws.send` happened, so the
message is not silently dropped — the caller observes the failure. -/
theorem c7_send_not_connected (s : WSState) (m : WireMsg)
    (h : s.isConnected = false) :
    send s m = Except.error SendErr.notConnected := by
  simp [send, h]

/-- C7 witness: sending on a freshly constructed (disconnected) manager. -/
theorem c7_witness : send initWS WireMsg.ping = Except.error SendErr.notConnected :=
  c7_send_not_connected initWS WireMsg.ping rfl

/-- C8: encoding any finite byte sequence to the wire text form (the base64
payload produced by `fileToBase64` after the data-URL prefix) and decoding
it back with `base64ToBlob`'s `atob`-and-copy loop yields the identical byte
sequence. -/
theorem c8_roundtrip (bs : List Nat) (h : ∀ b ∈ bs, b < 256) :
    decodeB64 (encodeB64 bs) = bs :=
  decodeB64_encodeB64 bs h

set_option maxRecDepth 8000 in
/-- C8 witness: the round trip at the empty sequence and at a sequence
containing every byte value 0–255. -/
theorem c8_witness :
    decodeB64 (encodeB64 (List.range 256)) = List.range 256 ∧
    decodeB64 (encodeB64 []) = [] :=
  ⟨c8_roundtrip (List.range 256) (by decide), c8_roundtrip [] (by decide)⟩

/-- C9: evaluating `handleResultMessage` at a wire-conformant `result`
message (top-level `processing_time = 1`, `inference_fps = 30`,
`frames_processed = 30`, `model_used = "nota_wav2lip"`).  The video is
decoded (32 bytes) and shown, but the displayed result carries
`0 / 0 / 0 / "Unknown"` instead of the message's values, because the handler
reads `message.metrics?.processing_time`, `…?.inference_fps`,
`…?.frames_processed` and `…?.model_type`, none of which exist on the
documented message shape. -/
theorem c9_metrics_dropped :
    ((handleResultMessage busyPipeline demoFiles wireResultExample 1100).2.2).map
        (fun v => (v.videoBytes.length, v.total_processing_time, v.inference_fps,
                   v.frames_processed, v.model_type)) =
      some (32, 0, 0, 0, "Unknown") ∧
    wireResultExample.processing_time = some 1 ∧
    wireResultExample.inference_fps = some 30 ∧
    wireResultExample.frames_processed = some 30 ∧
    wireResultExample.model_used = some "nota_wav2lip" := by
  refine ⟨?_, rfl, rfl, rfl, rfl⟩
  rfl

/-- C10: after the pipeline handles any terminal inbound message (`result`,
`error` or `cancelled`), its `isProcessing` flag is false, and therefore a
subsequent `startProcessing` call on the resulting state is never rejected
with the single-flight conflict. -/
theorem c10_terminal_clears_flag (st : PipelineState) (files : Files)
    (now : Nat) (m : ServerMsg) (h : isTerminal m = true) :
    (dispatch st files now m).1.isProcessing = false ∧
    ∀ f2 cfg wsReady connectOk t,
      (startProcessing (dispatch st files now m).1 f2 cfg wsReady connectOk t).outcome ≠
        StartOutcome.rejected StartErr.alreadyProcessing := by
  have hflag : (dispatch st files now m).1.isProcessing = false := by
    cases m with
    | result mr => exact handleResultMessage_fst st files mr now
    | error et msg => simp [dispatch, handleErrorMessage, stopProcessing_fst]
    | cancelled => simp [dispatch, handleCancelledMessage, stopProcessing_fst]
    | connection c msg => cases h
    | progress p msg mm => cases h
    | pong => cases h
  exact ⟨hflag, fun f2 cfg wsReady connectOk t =>
    startProcessing_no_conflict _ f2 cfg wsReady connectOk t hflag⟩

/-- C10 witness: after a `cancelled` terminal message the flag is down and a
fresh `startProcessing` is not rejected for single-flight conflict. -/
theorem c10_witness :
    (dispatch busyPipeline demoFiles 900 ServerMsg.cancelled).1.isProcessing = false :=
  (c10_terminal_clears_flag busyPipeline demoFiles 900 ServerMsg.cancelled rfl).1

end Illuminus
